import Mathlib

/-!
Verification of the OIDC trust-policy reconciliation script
(scripts/aws/apply_oidc_trust_policy.py).

The script builds a fixed GitHub-Actions OIDC trust-policy document,
prompts for AWS credentials, updates the assume-role policy of a fixed
IAM role via the IAM API, and then fetches the role back for a
verification printout.  We embed the policy constructor and the main
routine shallowly: network calls are abstracted into an `IamClient`
record of responses, and the run is summarised by its exit code, the
sequence of network calls it made, the lines it printed, and a final
outcome tag.
-/

namespace OidcTrustPolicy

/-- The `Condition` object of a trust-policy statement: two operator
maps, each an association list from claim key to expected value,
mirroring the nested dictionaries built by `create_trust_policy`. -/
structure TrustCond where
  stringEquals : List (String × String)
  stringLike : List (String × String)
deriving DecidableEq, Repr

/-- One statement of the trust-policy document, mirroring the single
dictionary built by `create_trust_policy`: effect, federated principal
ARN, action, and condition block. -/
structure TrustStmt where
  Effect : String
  PrincipalFederated : String
  Action : String
  Cond : TrustCond
deriving DecidableEq, Repr

/-- The whole trust-policy document: policy-language version and the
list of statements. -/
structure TrustPolicyDocument where
  Version : String
  Statement : List TrustStmt
deriving DecidableEq, Repr

/-- Embedding of `create_trust_policy(account_id, github_repo)`: builds
the OIDC trust-policy document exactly as the Python function does,
with f-string interpolation rendered as string concatenation.  The
Python function performs no validation and always returns a document. -/
def create_trust_policy (account_id github_repo : String) : TrustPolicyDocument :=
  { Version := "2012-10-17"
    Statement := [
      { Effect := "Allow"
        PrincipalFederated :=
          "arn:aws:iam::" ++ account_id ++ ":oidc-provider/token.actions.githubusercontent.com"
        Action := "sts:AssumeRoleWithWebIdentity"
        Cond :=
          { stringEquals :=
              [("token.actions.githubusercontent.com:aud", "sts.amazonaws.com")]
            stringLike :=
              [("token.actions.githubusercontent.com:sub", "repo:" ++ github_repo ++ ":*")] } }] }

/-- Kinds of AWS client errors distinguished by the design taxonomy.
The script itself catches every `ClientError` uniformly. -/
inductive ErrKind
  | accessDenied
  | roleNotFound
  | serviceUnavailable
  | other
deriving DecidableEq, Repr

/-- An AWS client error: its kind together with the rendered message
string that Python would obtain by formatting the exception. -/
structure AwsErr where
  kind : ErrKind
  msg : String
deriving DecidableEq, Repr

/-- Abstract IAM client behaviour: `update n` is the response the
service would give to the n-th `update_assume_role_policy` attempt
(`none` meaning success), and `getRoleRes` is the response to
`get_role` (a parsed assume-role-policy document on success). -/
structure IamClient where
  update : Nat → Option AwsErr
  getRoleRes : Except AwsErr TrustPolicyDocument

/-- A network call made by the script. -/
inductive NetEvent
  | updateAssumeRolePolicy (roleName : String) (doc : TrustPolicyDocument)
  | getRole (roleName : String)
deriving DecidableEq, Repr

/-- One printed line: either literal text or the JSON dump of a
document (the dump itself is not modelled, only which document is
printed). -/
inductive OutLine
  | text (s : String)
  | policyJson (doc : TrustPolicyDocument)
deriving DecidableEq, Repr

/-- Terminal outcome of a run of `main`. -/
inductive Outcome
  | emptyCredentials
  | applyFailed (e : AwsErr)
  | appliedFetchOk (fetched : TrustPolicyDocument)
  | appliedFetchWarn (e : AwsErr)
deriving DecidableEq, Repr

/-- Summary of one run of `main`: process exit code, whether the
boto3 IAM client was constructed, the network calls made in order,
the printed lines in order, and the outcome tag. -/
structure RunResult where
  exitCode : Nat
  clientConstructed : Bool
  trace : List NetEvent
  output : List OutLine
  outcome : Outcome
deriving DecidableEq, Repr

/-- Hardcoded role name from `main`. -/
def role_name : String := "github-actions-role"

/-- Hardcoded account id from `main`. -/
def account_id : String := "422017356244"

/-- Hardcoded repository slug from `main`. -/
def github_repo : String := "cloudtolocalllm/cloudtolocalllm"

/-- Hardcoded region from `main`. -/
def region : String := "us-east-1"

/-- Model of the Python `str.strip()` call with no arguments: removes
leading and trailing whitespace characters. -/
def pyStrip (s : String) : String :=
  String.mk ((s.data.dropWhile Char.isWhitespace).reverse.dropWhile Char.isWhitespace).reverse

/-- The two strings read at the credential prompts: the access key id
as typed (before `.strip()`) and the secret access key. -/
structure Creds where
  accessKeyIdRaw : String
  secretAccessKey : String

/-- The banner and prompt lines printed before the credential check. -/
def headerOut : List OutLine :=
  [ .text "GitHub Actions OIDC Trust Policy Setup"
  , .text "========================================"
  , .text ""
  , .text "Enter AWS Root Credentials:"
  , .text "" ]

/-- The closing lines printed after the verify phase. -/
def footerOut : List OutLine :=
  [ .text ""
  , .text "✓ OIDC trust policy applied successfully"
  , .text ""
  , .text "Next steps:"
  , .text "1. Trigger Deploy to AWS EKS workflow in GitHub"
  , .text "2. Monitor the workflow"
  , .text "3. Delete the root API key" ]

/-- Embedding of `main()`.  It strips the access key id, exits with
code 1 on empty credentials before constructing the IAM client, builds
the trust policy from the hardcoded constants, calls
`update_assume_role_policy` once (exiting 1 on any error), then calls
`get_role` and prints the fetched document on success or a warning on
error, and finally exits with code 0. -/
def runMain (creds : Creds) (client : IamClient) : RunResult :=
  let access := pyStrip creds.accessKeyIdRaw
  let secret := creds.secretAccessKey
  if access = "" ∨ secret = "" then
    { exitCode := 1
      clientConstructed := false
      trace := []
      output := headerOut ++ [.text "✗ Credentials cannot be empty"]
      outcome := .emptyCredentials }
  else
    let doc := create_trust_policy account_id github_repo
    let pre := headerOut ++
      [ .text ""
      , .text "✓ Credentials received"
      , .text ""
      , .text "Trust Policy:"
      , .policyJson doc
      , .text ""
      , .text "Updating IAM role trust policy..."
      , .text ("Role: " ++ role_name)
      , .text ("Region: " ++ region)
      , .text "" ]
    match client.update 0 with
    | some e =>
      { exitCode := 1
        clientConstructed := true
        trace := [.updateAssumeRolePolicy role_name doc]
        output := pre ++ [.text ("✗ Failed to update trust policy: " ++ e.msg)]
        outcome := .applyFailed e }
    | none =>
      let afterApply := pre ++
        [ .text "✓ Trust policy updated successfully"
        , .text ""
        , .text "Verifying trust policy..." ]
      let verified : List OutLine × Outcome :=
        match client.getRoleRes with
        | .ok cur =>
          (afterApply ++
            [ .text "✓ Trust policy verified"
            , .text ""
            , .text "Current Trust Policy:"
            , .policyJson cur ], Outcome.appliedFetchOk cur)
        | .error e =>
          (afterApply ++ [.text ("⚠ Could not verify trust policy: " ++ e.msg)],
            Outcome.appliedFetchWarn e)
      { exitCode := 0
        clientConstructed := true
        trace := [.updateAssumeRolePolicy role_name doc, .getRole role_name]
        output := verified.1 ++ footerOut
        outcome := verified.2 }

/-- The document that `main` builds from its hardcoded constants. -/
def builtDoc : TrustPolicyDocument := create_trust_policy account_id github_repo

/-- Non-empty credentials, as typed at the two prompts. -/
def goodCreds : Creds :=
  { accessKeyIdRaw := "AKIAEXAMPLEKEY", secretAccessKey := "examplesecret" }

/-- Credentials whose access key id is only whitespace, so it strips to
the empty string. -/
def whitespaceCreds : Creds :=
  { accessKeyIdRaw := "   ", secretAccessKey := "examplesecret" }

/-- A faithful store: the update succeeds and the fetch echoes back the
built document. -/
def echoClient : IamClient :=
  { update := fun _ => none, getRoleRes := .ok builtDoc }

/-- A document for a different repository slug, hence with a different
sub condition than the built one. -/
def mismatchDoc : TrustPolicyDocument := create_trust_policy account_id "someoneelse/otherrepo"

/-- A client whose update succeeds but whose fetch returns a document
with a different sub condition value. -/
def mismatchClient : IamClient :=
  { update := fun _ => none, getRoleRes := .ok mismatchDoc }

/-- A client whose update succeeds but whose fetch fails. -/
def fetchErr : AwsErr := { kind := .serviceUnavailable, msg := "ServiceUnavailable on GetRole" }

/-- A client whose update succeeds but whose fetch errors out. -/
def fetchErrClient : IamClient :=
  { update := fun _ => none, getRoleRes := .error fetchErr }

/-- The transient error served by `flakyClient`. -/
def svcErr : AwsErr := { kind := .serviceUnavailable, msg := "Service Unavailable" }

/-- A fake client that answers ServiceUnavailable to the first n update
attempts and succeeds from attempt n on; its fetch echoes the built
document. -/
def flakyClient (n : Nat) : IamClient :=
  { update := fun attempt => if attempt < n then some svcErr else none
    getRoleRes := .ok builtDoc }

/-- A concrete fatal error for the update call. -/
def accessDeniedErr : AwsErr :=
  { kind := .accessDenied, msg := "AccessDenied when calling UpdateAssumeRolePolicy" }

/-- A client whose update always fails with the given error. -/
def fatalClient (e : AwsErr) : IamClient :=
  { update := fun _ => some e, getRoleRes := .ok builtDoc }

/-- If the stripped access key id or the secret is empty, `runMain`
exits 1 before constructing the client and makes no network call. -/
theorem runMain_creds_empty (creds : Creds) (client : IamClient)
    (h : pyStrip creds.accessKeyIdRaw = "" ∨ creds.secretAccessKey = "") :
    runMain creds client =
      { exitCode := 1
        clientConstructed := false
        trace := []
        output := headerOut ++ [.text "✗ Credentials cannot be empty"]
        outcome := .emptyCredentials } := by
  unfold runMain
  rw [if_pos h]

/-- With non-empty credentials and a failing update, `runMain` makes
exactly the one update call, prints the error message, and exits 1. -/
theorem runMain_update_err (creds : Creds) (client : IamClient) (e : AwsErr)
    (h : ¬(pyStrip creds.accessKeyIdRaw = "" ∨ creds.secretAccessKey = ""))
    (hU : client.update 0 = some e) :
    (runMain creds client).exitCode = 1 ∧
    (runMain creds client).trace = [.updateAssumeRolePolicy role_name builtDoc] ∧
    (runMain creds client).outcome = .applyFailed e ∧
    OutLine.text ("✗ Failed to update trust policy: " ++ e.msg) ∈ (runMain creds client).output := by
  unfold runMain
  rw [if_neg h, hU]
  refine ⟨rfl, rfl, rfl, ?_⟩
  simp

/-- With non-empty credentials and a successful update, `runMain` makes
one update call then one fetch call, reports the outcome determined by
the fetch response alone, and exits 0. -/
theorem runMain_update_ok (creds : Creds) (client : IamClient)
    (h : ¬(pyStrip creds.accessKeyIdRaw = "" ∨ creds.secretAccessKey = ""))
    (hU : client.update 0 = none) :
    (runMain creds client).exitCode = 0 ∧
    (runMain creds client).trace =
      [.updateAssumeRolePolicy role_name builtDoc, .getRole role_name] ∧
    (runMain creds client).outcome =
      (match client.getRoleRes with
       | .ok cur => Outcome.appliedFetchOk cur
       | .error e => Outcome.appliedFetchWarn e) := by
  unfold runMain
  rw [if_neg h, hU]
  cases client.getRoleRes with
  | ok cur => exact ⟨rfl, rfl, rfl⟩
  | error e => exact ⟨rfl, rfl, rfl⟩

/-- C1: for every accountID and repoSlug the built trust-policy
document has Version 2012-10-17 and exactly one statement, with effect
Allow, federated principal ARN derived from the account id and the
fixed provider host, action sts:AssumeRoleWithWebIdentity, an exact
StringEquals match of the aud claim to sts.amazonaws.com, and a
StringLike wildcard match of the sub claim scoped to the repository;
in particular for accountID 123456789012 and repoSlug acme/widget the
sub condition value is repo:acme/widget:* and the aud condition value
is sts.amazonaws.com. -/
theorem C1_trust_policy_shape (a r : String) :
    (create_trust_policy a r).Version = "2012-10-17" ∧
    (create_trust_policy a r).Statement =
      [{ Effect := "Allow"
         PrincipalFederated :=
           "arn:aws:iam::" ++ a ++ ":oidc-provider/token.actions.githubusercontent.com"
         Action := "sts:AssumeRoleWithWebIdentity"
         Cond :=
           { stringEquals :=
               [("token.actions.githubusercontent.com:aud", "sts.amazonaws.com")]
             stringLike :=
               [("token.actions.githubusercontent.com:sub", "repo:" ++ r ++ ":*")] } }] ∧
    (create_trust_policy "123456789012" "acme/widget").Statement.map
        (fun s => s.Cond.stringLike) =
      [[("token.actions.githubusercontent.com:sub", "repo:acme/widget:*")]] ∧
    (create_trust_policy "123456789012" "acme/widget").Statement.map
        (fun s => s.Cond.stringEquals) =
      [[("token.actions.githubusercontent.com:aud", "sts.amazonaws.com")]] :=
  ⟨rfl, rfl, by decide, rfl⟩

/-- C2 counterexample: the claim says a fetched document that differs
from the built one yields Applied+VerifyFailed, but when the fetch
returns a document with a different sub condition the script still
reports the verified outcome for the fetched document and exits 0. -/
theorem C2_counterexample :
    (runMain goodCreds mismatchClient).outcome = .appliedFetchOk mismatchDoc ∧
    mismatchDoc ≠ builtDoc ∧
    (runMain goodCreds mismatchClient).exitCode = 0 := by
  refine ⟨by decide, by decide, by decide⟩

/-- C2 amended: after a successful apply the verify phase fetches the
current trust policy but performs no structural comparison at all: a
successful fetch is always reported as the verified outcome for
whatever document came back, even when it differs from the built one,
and a fetch error only produces a warning; in either case no further
apply is attempted and the run exits 0. -/
theorem C2_amended_no_comparison (creds : Creds) (client : IamClient)
    (hA : pyStrip creds.accessKeyIdRaw ≠ "") (hS : creds.secretAccessKey ≠ "")
    (hU : client.update 0 = none) :
    (runMain creds client).trace =
      [.updateAssumeRolePolicy role_name builtDoc, .getRole role_name] ∧
    (runMain creds client).outcome =
      (match client.getRoleRes with
       | .ok cur => Outcome.appliedFetchOk cur
       | .error e => Outcome.appliedFetchWarn e) ∧
    (runMain creds client).exitCode = 0 := by
  have h : ¬(pyStrip creds.accessKeyIdRaw = "" ∨ creds.secretAccessKey = "") := by
    rintro (h | h)
    · exact hA h
    · exact hS h
  obtain ⟨h0, h1, h2⟩ := runMain_update_ok creds client h hU
  exact ⟨h1, h2, h0⟩

/-- C2 amended, witness: the amended behaviour at the concrete client
whose fetch returns a different document. -/
theorem C2_amended_no_comparison_witness :
    (runMain goodCreds mismatchClient).trace =
      [.updateAssumeRolePolicy role_name builtDoc, .getRole role_name] ∧
    (runMain goodCreds mismatchClient).outcome =
      (match mismatchClient.getRoleRes with
       | .ok cur => Outcome.appliedFetchOk cur
       | .error e => Outcome.appliedFetchWarn e) ∧
    (runMain goodCreds mismatchClient).exitCode = 0 :=
  C2_amended_no_comparison goodCreds mismatchClient (by decide) (by decide) rfl

/-- C3 counterexample: the claim says every outcome other than
Applied+Verified exits non-zero, but when the apply succeeds and the
verification fetch errors out the script still exits 0. -/
theorem C3_counterexample :
    (runMain goodCreds fetchErrClient).exitCode = 0 ∧
    (runMain goodCreds fetchErrClient).outcome = .appliedFetchWarn fetchErr := by
  refine ⟨by decide, by decide⟩

/-- C3 amended: the process exits 0 iff the credentials pass the
emptiness check and the single update call succeeds; the verification
fetch and its result never influence the exit code. -/
theorem C3_amended_exit_code (creds : Creds) (client : IamClient) :
    (runMain creds client).exitCode = 0 ↔
      (pyStrip creds.accessKeyIdRaw ≠ "" ∧ creds.secretAccessKey ≠ "" ∧
        client.update 0 = none) := by
  by_cases h : pyStrip creds.accessKeyIdRaw = "" ∨ creds.secretAccessKey = ""
  · rw [runMain_creds_empty creds client h]
    simp only [Nat.one_ne_zero, false_iff]
    rintro ⟨hA, hS, -⟩
    rcases h with h | h
    · exact hA h
    · exact hS h
  · push_neg at h
    cases hU : client.update 0 with
    | some e =>
      obtain ⟨h0, -, -, -⟩ := runMain_update_err creds client e (by simp [h.1, h.2]) hU
      simp [h0, h.1, h.2, hU]
    | none =>
      obtain ⟨h0, -, -⟩ := runMain_update_ok creds client (by simp [h.1, h.2]) hU
      simp [h0, h.1, h.2]

/-- C4 counterexample: the claim says the builder fails with
InvalidInput on an empty accountID or a repoSlug without a slash, but
the code performs no validation: with accountID empty and repoSlug
acme it still returns a complete document whose sub condition is
repo:acme:*. -/
theorem C4_counterexample :
    create_trust_policy "" "acme" =
      { Version := "2012-10-17"
        Statement := [
          { Effect := "Allow"
            PrincipalFederated :=
              "arn:aws:iam:::oidc-provider/token.actions.githubusercontent.com"
            Action := "sts:AssumeRoleWithWebIdentity"
            Cond :=
              { stringEquals :=
                  [("token.actions.githubusercontent.com:aud", "sts.amazonaws.com")]
                stringLike :=
                  [("token.actions.githubusercontent.com:sub", "repo:acme:*")] } }] } := by
  decide

/-- C4 amended: the builder performs no input validation and is total:
for every accountID and repoSlug, including empty strings and slugs
with no slash, it returns a one-statement document whose sub condition
value embeds the slug verbatim; the script takes no caller input for
these parameters, so no invalid-input rejection path exists. -/
theorem C4_amended_no_validation (a r : String) :
    (create_trust_policy a r).Statement.length = 1 ∧
    (create_trust_policy a r).Statement.map (fun s => s.Cond.stringLike) =
      [[("token.actions.githubusercontent.com:sub", "repo:" ++ r ++ ":*")]] :=
  ⟨rfl, rfl⟩

/-- C5 counterexample: the claim says a client failing with
ServiceUnavailable N times then succeeding leads to success whenever
N is below the maximum attempt count of 3, but with N equal to 1 the
script already fails: it never retries and exits 1 with the apply
failure. -/
theorem C5_counterexample :
    1 < 3 ∧
    (runMain goodCreds (flakyClient 1)).outcome = .applyFailed svcErr ∧
    (runMain goodCreds (flakyClient 1)).exitCode = 1 := by
  refine ⟨by decide, by decide, by decide⟩

/-- C5 amended: the script performs no retries: it makes exactly one
update attempt per run, so against a client that returns
ServiceUnavailable N times then succeeds, the run exits 0 iff N equals
0, and otherwise fails immediately with the apply failure. -/
theorem C5_amended_no_retry (n : Nat) :
    ((runMain goodCreds (flakyClient n)).exitCode = 0 ↔ n = 0) ∧
    (runMain goodCreds (flakyClient n)).trace.countP
      (fun ev => match ev with
        | .updateAssumeRolePolicy _ _ => true
        | .getRole _ => false) = 1 := by
  have hc : ¬(pyStrip goodCreds.accessKeyIdRaw = "" ∨ goodCreds.secretAccessKey = "") := by
    decide
  cases n with
  | zero => exact ⟨by decide, by decide⟩
  | succ m =>
    have hU : (flakyClient (m + 1)).update 0 = some svcErr := by
      simp [flakyClient]
    obtain ⟨h0, h1, -, -⟩ := runMain_update_err goodCreds (flakyClient (m + 1)) svcErr hc hU
    constructor
    · simp [h0]
    · rw [h1]
      decide

/-- C6: when the apply call fails with AccessDenied or RoleNotFound the
run becomes an apply failure: it exits 1, the underlying error is
carried in the outcome and surfaced verbatim in a printed
human-readable message, the update is not retried (the trace holds
exactly one update call), and no verification fetch is attempted. -/
theorem C6_fatal_apply_failure (creds : Creds) (client : IamClient) (e : AwsErr)
    (hA : pyStrip creds.accessKeyIdRaw ≠ "") (hS : creds.secretAccessKey ≠ "")
    (_hk : e.kind = ErrKind.accessDenied ∨ e.kind = ErrKind.roleNotFound)
    (hU : client.update 0 = some e) :
    (runMain creds client).exitCode = 1 ∧
    (runMain creds client).outcome = .applyFailed e ∧
    (runMain creds client).trace = [.updateAssumeRolePolicy role_name builtDoc] ∧
    OutLine.text ("✗ Failed to update trust policy: " ++ e.msg) ∈
      (runMain creds client).output := by
  have h : ¬(pyStrip creds.accessKeyIdRaw = "" ∨ creds.secretAccessKey = "") := by
    rintro (h | h)
    · exact hA h
    · exact hS h
  obtain ⟨h0, h1, h2, h3⟩ := runMain_update_err creds client e h hU
  exact ⟨h0, h2, h1, h3⟩

/-- C6 witness: the fatal-failure behaviour at a concrete AccessDenied
client. -/
theorem C6_fatal_apply_failure_witness :
    (runMain goodCreds (fatalClient accessDeniedErr)).exitCode = 1 ∧
    (runMain goodCreds (fatalClient accessDeniedErr)).outcome =
      .applyFailed accessDeniedErr ∧
    (runMain goodCreds (fatalClient accessDeniedErr)).trace =
      [.updateAssumeRolePolicy role_name builtDoc] ∧
    OutLine.text ("✗ Failed to update trust policy: " ++ accessDeniedErr.msg) ∈
      (runMain goodCreds (fatalClient accessDeniedErr)).output :=
  C6_fatal_apply_failure goodCreds (fatalClient accessDeniedErr) accessDeniedErr
    (by decide) (by decide) (Or.inl rfl) rfl

/-- C7: in every run the trace is empty, a single update call, or an
update call followed by the single fetch call; the fetch appears only
after the update and only when the update returned success, so the
role is mutated at most once and apply always completes before verify
begins. -/
theorem C7_apply_before_verify (creds : Creds) (client : IamClient) :
    (runMain creds client).trace = [] ∨
    (runMain creds client).trace = [.updateAssumeRolePolicy role_name builtDoc] ∨
    ((runMain creds client).trace =
        [.updateAssumeRolePolicy role_name builtDoc, .getRole role_name] ∧
      client.update 0 = none) := by
  by_cases h : pyStrip creds.accessKeyIdRaw = "" ∨ creds.secretAccessKey = ""
  · left
    rw [runMain_creds_empty creds client h]
  · cases hU : client.update 0 with
    | some e =>
      right; left
      exact (runMain_update_err creds client e h hU).2.1
    | none =>
      right; right
      exact ⟨(runMain_update_ok creds client h hU).2.1, rfl⟩

/-- C8: the policy builder is deterministic and pure: two calls with
identical inputs produce structurally equal documents. -/
theorem C8_build_deterministic (a₁ r₁ a₂ r₂ : String)
    (ha : a₁ = a₂) (hr : r₁ = r₂) :
    create_trust_policy a₁ r₁ = create_trust_policy a₂ r₂ := by
  rw [ha, hr]

/-- C8 witness: determinism at the Scenario A inputs. -/
theorem C8_build_deterministic_witness :
    create_trust_policy "123456789012" "acme/widget" =
      create_trust_policy "123456789012" "acme/widget" :=
  C8_build_deterministic "123456789012" "acme/widget" "123456789012" "acme/widget" rfl rfl

/-- C9: when the stripped access key id or the secret access key is
empty the run exits 1 before the IAM client is constructed and makes
no network call, leaving the trust policy of the role untouched. -/
theorem C9_empty_credentials_exit (creds : Creds) (client : IamClient)
    (h : pyStrip creds.accessKeyIdRaw = "" ∨ creds.secretAccessKey = "") :
    (runMain creds client).exitCode = 1 ∧
    (runMain creds client).clientConstructed = false ∧
    (runMain creds client).trace = [] := by
  rw [runMain_creds_empty creds client h]
  exact ⟨rfl, rfl, rfl⟩

/-- C9 witness: credentials whose access key id is whitespace only. -/
theorem C9_empty_credentials_exit_witness :
    (runMain whitespaceCreds echoClient).exitCode = 1 ∧
    (runMain whitespaceCreds echoClient).clientConstructed = false ∧
    (runMain whitespaceCreds echoClient).trace = [] :=
  C9_empty_credentials_exit whitespaceCreds echoClient (Or.inl (by decide))

/-- Whether a network event targets the hardcoded role with the
document built from the hardcoded constants. -/
def fixedTarget : NetEvent → Bool
  | .updateAssumeRolePolicy r d =>
      decide (r = role_name) && decide (d = create_trust_policy account_id github_repo)
  | .getRole r => decide (r = role_name)

/-- C10: the configuration is fixed: the hardcoded constants are the
role github-actions-role, account 422017356244, slug
cloudtolocalllm/cloudtolocalllm and region us-east-1, and every
network call of every run targets that role with the document built
from those constants, whatever the prompt inputs and client
behaviour. -/
theorem C10_fixed_configuration (creds : Creds) (client : IamClient) :
    role_name = "github-actions-role" ∧
    account_id = "422017356244" ∧
    github_repo = "cloudtolocalllm/cloudtolocalllm" ∧
    region = "us-east-1" ∧
    (runMain creds client).trace.all fixedTarget = true := by
  refine ⟨rfl, rfl, rfl, rfl, ?_⟩
  by_cases h : pyStrip creds.accessKeyIdRaw = "" ∨ creds.secretAccessKey = ""
  · rw [runMain_creds_empty creds client h]
    rfl
  · cases hU : client.update 0 with
    | some e =>
      rw [(runMain_update_err creds client e h hU).2.1]
      decide
    | none =>
      rw [(runMain_update_ok creds client h hU).2.1]
      decide

end OidcTrustPolicy
